import Mathlib

/-!
Shallow embedding of the Kino.pub Kodi addon API client (`lib/api.py`,
class `KinoPubAPI`) and proofs about its OAuth 2.0 device-flow
authentication, token refresh, token persistence and resource calls.

Modelling conventions:
* JSON values are `JVal` (string / integer / boolean / null); JSON objects
  are association lists `JObj` with first-match lookup (Python dicts have
  unique keys, so first-match lookup is faithful).
* The mutable fields of the Python object become the record `APIState`.
* The network is an oracle: each HTTP exchange is summarised by a
  `NetResult` (a `requests` exception, or a status code plus the parsed
  JSON body, `none` standing for an unparseable body).  In the polling
  loop the oracle is indexed by the iteration number.
* Wall-clock time in `wait_for_activation` is an oracle `clock : Nat → Int`
  giving the elapsed seconds `time.time() - start_time` observed at the
  top of loop iteration `i`; the loop itself is driven by a fuel counter,
  with the deadline test performed before fuel is consumed so that fuel
  exhaustion (`WaitResult.fuelOut`) can only happen strictly before the
  deadline.
* `time.sleep` is recorded in a trace (the list of slept amounts), and
  every HTTP request actually issued is recorded as an `HttpRequest`
  (method, url, query params, form/json body, and the `Authorization`
  header if one was attached).
* Python exceptions that escape a method are modelled explicitly
  (`PyOutcome.exn` / `WaitResult.exn`), together with the state at the
  moment the exception is raised.
-/

namespace KinoPub

/-- A JSON value, as stored in Python attributes and response bodies. -/
inductive JVal where
  | str : String → JVal
  | num : Int → JVal
  | bool : Bool → JVal
  | null : JVal
  deriving DecidableEq, Repr

/-- A JSON object / Python dict, as an association list. -/
abbrev JObj := List (String × JVal)

/-- Dict lookup: `o.get(k)` / `k in o`.  First match (dict keys are unique). -/
def JObj.getVal : JObj → String → Option JVal
  | [], _ => none
  | (k, v) :: rest, key => if k = key then some v else JObj.getVal rest key

/-- `o.get(k, d)`: lookup with a default. -/
def JObj.getD (o : JObj) (key : String) (d : JVal) : JVal :=
  (o.getVal key).getD d

/-- Python truthiness of a JSON value. -/
def JVal.truthy : JVal → Bool
  | .str s => s ≠ ""
  | .num n => n ≠ 0
  | .bool b => b
  | .null => false

/-- Python truthiness of an attribute that may be `None`. -/
def truthyOpt : Option JVal → Bool
  | none => false
  | some v => v.truthy

/-- Python `x or d` for an attribute `x` that may be `None`. -/
def pyOr (v : Option JVal) (d : JVal) : JVal :=
  match v with
  | some x => if x.truthy then x else d
  | none => d

/-- Python `str()` of a JSON value, used by the f-string building the
bearer header. -/
def JVal.pyStr : JVal → String
  | .str s => s
  | .num n => toString n
  | .bool b => if b then "True" else "False"
  | .null => "None"

/-- `self.base_url`. -/
def base_url : String := "https://api.service-kp.com"

/-- `self.client_id`. -/
def client_id : String := "xbmc"

/-- `self.client_secret`. -/
def client_secret : String := "cgg3gtifu46urtfp2zp1nqtba0k2ezxh"

/-- The mutable attributes of `KinoPubAPI` relevant to authentication. -/
structure APIState where
  access_token : Option JVal
  refresh_token : Option JVal
  device_code : Option JVal
  user_code : Option JVal
  verification_uri : Option JVal
  expires_in : Option JVal
  interval : JVal
  deriving DecidableEq, Repr

/-- Attribute values set in `__init__` before `_load_tokens` runs. -/
def initState : APIState :=
  { access_token := none, refresh_token := none, device_code := none,
    user_code := none, verification_uri := none, expires_in := none,
    interval := .num 5 }

/-- The persisted token cache (`tokens.json` in the addon profile):
either absent, present but unreadable/not valid JSON, or a stored JSON
object `{"access_token": a, "refresh_token": r}` (a `none` field was
serialised as JSON `null` and is read back by `.get` as `None`, so the
two are identified). -/
inductive TokenFile where
  | missing : TokenFile
  | corrupt : TokenFile
  | stored : Option JVal → Option JVal → TokenFile
  deriving DecidableEq, Repr

/-- `_load_tokens` (Python name `_load_tokens`): reads the cache if it
exists; any exception (unreadable file, invalid JSON) is swallowed and
the attributes are left as they were. -/
def load_tokens (st : APIState) (fs : TokenFile) : APIState :=
  match fs with
  | .missing => st
  | .corrupt => st
  | .stored a r => { st with access_token := a, refresh_token := r }

/-- `_save_tokens` (Python name `_save_tokens`): writes
`{"access_token": ..., "refresh_token": ...}` to the cache file. -/
def save_tokens (st : APIState) : TokenFile :=
  .stored st.access_token st.refresh_token

/-- A freshly constructed `KinoPubAPI` (the constructor loads the cache). -/
def newAPI (fs : TokenFile) : APIState := load_tokens initState fs

/-- HTTP methods used by the client (all call sites pass "GET" or "POST";
the `ValueError` branch for other methods is dead code at every caller). -/
inductive Method where
  | GET : Method
  | POST : Method
  deriving DecidableEq, Repr

/-- A description of one HTTP request as actually issued on the wire. -/
structure HttpRequest where
  method : Method
  url : String
  params : JObj
  data : JObj
  authHeader : Option String
  contentTypeJson : Bool
  deriving DecidableEq, Repr

/-- The network's answer to one HTTP exchange: a `requests`-level
exception (DNS/connect/timeout, and also a JSON-decode failure, which in
`requests` is a `RequestException` subclass), or a completed response
with its status code and parsed JSON body (`none` = body not parseable
as a JSON object). -/
inductive NetResult where
  | exn : NetResult
  | http : Nat → Option JObj → NetResult
  deriving DecidableEq, Repr

/-- `urljoin(self.base_url, endpoint)` for the root-relative endpoints this
client uses: the base has no path, so the join is concatenation. -/
def urljoin (b p : String) : String := b ++ p

/-- The request built by `_make_request`: the `Authorization: Bearer`
header is attached exactly when `require_auth and self.access_token`
is truthy. -/
def buildRequest (st : APIState) (m : Method) (endpoint : String)
    (params data : JObj) (require_auth use_json : Bool) : HttpRequest :=
  { method := m
    url := urljoin base_url endpoint
    params := params
    data := data
    authHeader :=
      if require_auth && truthyOpt st.access_token then
        some ("Bearer " ++ (st.access_token.getD .null).pyStr)
      else none
    contentTypeJson := use_json }

/-- The value `_make_request` returns for a given network outcome:
`response.raise_for_status()` raises on any status ≥ 400 and the
surrounding `except requests.exceptions.RequestException` turns every
such exception — like every network-level error and JSON-decode
failure — into `{}`; otherwise `response.json() or {}` yields the
parsed body. -/
def responseOf : NetResult → JObj
  | .exn => []
  | .http status body =>
    if 400 ≤ status then []
    else
      match body with
      | none => []
      | some o => o

/-- `_make_request`: the request put on the wire and the dict returned. -/
def make_request (st : APIState) (m : Method) (endpoint : String)
    (params data : JObj) (require_auth use_json : Bool) (net : NetResult) :
    HttpRequest × JObj :=
  (buildRequest st m endpoint params data require_auth use_json, responseOf net)

/-- Outcome of a Python method: a returned value, or an escaped exception. -/
inductive PyOutcome (α : Type) where
  | ok : α → PyOutcome α
  | exn : String → PyOutcome α
  deriving DecidableEq, Repr

/-- The form body sent by `start_device_auth`. -/
def device_auth_data : JObj :=
  [("grant_type", .str "device_code"), ("client_id", .str client_id),
   ("client_secret", .str client_secret)]

/-- `start_device_auth`: POSTs the device-code request (no bearer header:
`require_auth=False`).  `response and "code" in response` is equivalent
to `"code" in response` since a dict containing `"code"` is nonempty.
On the success branch the assignments run in source order, so a response
carrying `"code"` but missing `"user_code"` or `"verification_uri"`
raises `KeyError` after the earlier attributes were already assigned. -/
def start_device_auth (st : APIState) (net : NetResult) :
    HttpRequest × PyOutcome Bool × APIState :=
  let req := buildRequest st .POST "/oauth2/device" [] device_auth_data false false
  let response := responseOf net
  match response.getVal "code" with
  | none => (req, .ok false, st)
  | some c =>
    let st1 := { st with device_code := some c }
    match response.getVal "user_code" with
    | none => (req, .exn "KeyError", st1)
    | some u =>
      let st2 := { st1 with user_code := some u }
      match response.getVal "verification_uri" with
      | none => (req, .exn "KeyError", st2)
      | some v =>
        (req, .ok true,
         { st2 with verification_uri := some v,
                    expires_in := some (response.getD "expires_in" (.num 8600)),
                    interval := response.getD "interval" (.num 5) })

/-- The form body sent on each activation poll. -/
def device_token_data (st : APIState) : JObj :=
  [("grant_type", .str "device_token"), ("client_id", .str client_id),
   ("client_secret", .str client_secret), ("code", st.device_code.getD .null)]

/-- The poll request `wait_for_activation` issues each iteration:
`self.session.post(url, data=data)` with no `headers` argument, and the
session's default headers carry no `Authorization`, so no bearer header
is ever attached to a poll. -/
def pollRequest (st : APIState) : HttpRequest :=
  { method := .POST, url := base_url ++ "/oauth2/device", params := [],
    data := device_token_data st, authHeader := none, contentTypeJson := false }

/-- The JSON body sent by `notify_device`. -/
def notify_data : JObj :=
  [("title", .str "Kodi Addon"), ("hardware", .str "Kodi"),
   ("software", .str "Kino.pub Addon/1.0")]

/-- `notify_device`: the requests it issues (its response is ignored).
It returns early when no access token is set; otherwise it calls
`_make_request` with the default `require_auth=True` and `use_json=True`. -/
def notify_device (st : APIState) : List HttpRequest :=
  if truthyOpt st.access_token then
    [buildRequest st .POST "/v1/device/notify"
      [("access_token", pyOr st.access_token (.str ""))] notify_data true true]
  else []

/-- Outcome of `wait_for_activation`: a returned boolean, an escaped
exception, or fuel exhaustion (a model artifact, only possible strictly
before the deadline). -/
inductive WaitResult where
  | done : Bool → WaitResult
  | exn : String → WaitResult
  | fuelOut : WaitResult
  deriving DecidableEq, Repr

/-- `(self.expires_in or 0)` coerced for the comparison with elapsed
time: `none` means Python would raise `TypeError` comparing a float with
a non-numeric truthy value. -/
def expires_or_zero : Option JVal → Option Int
  | none => some 0
  | some (.num n) => some n
  | some (.str s) => if s = "" then some 0 else none
  | some (.bool b) => some (if b then 1 else 0)
  | some .null => some 0

/-- The polling loop of `wait_for_activation`.  `clock i` is the elapsed
time observed at the top of iteration `i`; `net i` is the network's
answer to poll `i`.  Returns the outcome, the final attribute state, the
final token cache, the list of requests issued and the list of slept
amounts.  The loop state (`st`, `fs`, the deadline) never changes across
`authorization_pending` iterations, matching the source, where nothing
inside the loop mutates them before a terminal branch. -/
def wait_loop (st : APIState) (fs : TokenFile) (deadline : Int)
    (clock : Nat → Int) (net : Nat → NetResult) :
    Nat → Nat → WaitResult × APIState × TokenFile × List HttpRequest × List JVal
  | i, 0 =>
    if clock i < deadline then (.fuelOut, st, fs, [], [])
    else (.done false, st, fs, [], [])
  | i, fuel + 1 =>
    if clock i < deadline then
      match net i with
      | .exn => (.done false, st, fs, [pollRequest st], [])
      | .http status body =>
        if status = 200 then
          match body with
          | none => (.done false, st, fs, [pollRequest st], [])
          | some tok =>
            match tok.getVal "access_token" with
            | none => (.exn "KeyError", st, fs, [pollRequest st], [])
            | some a =>
              let st' := { st with access_token := some a,
                                   refresh_token := tok.getVal "refresh_token" }
              (.done true, st', save_tokens st',
               pollRequest st :: notify_device st', [])
        else if status = 400 then
          match body with
          | none => (.done false, st, fs, [pollRequest st], [])
          | some err =>
            if err.getVal "error" = some (.str "authorization_pending") then
              match wait_loop st fs deadline clock net (i + 1) fuel with
              | (r, st', fs', reqs, sleeps) =>
                (r, st', fs', pollRequest st :: reqs, st.interval :: sleeps)
            else (.done false, st, fs, [pollRequest st], [])
        else (.done false, st, fs, [pollRequest st], [])
    else (.done false, st, fs, [], [])

/-- `wait_for_activation`: guards on `self.device_code`, computes the
deadline from `self.expires_in or 0`, then runs the polling loop. -/
def wait_for_activation (st : APIState) (fs : TokenFile)
    (clock : Nat → Int) (net : Nat → NetResult) (fuel : Nat) :
    WaitResult × APIState × TokenFile × List HttpRequest × List JVal :=
  if truthyOpt st.device_code then
    match expires_or_zero st.expires_in with
    | none => (.exn "TypeError", st, fs, [], [])
    | some deadline => wait_loop st fs deadline clock net 0 fuel
  else (.done false, st, fs, [], [])

/-- The form body sent by `refresh_access_token`. -/
def refresh_data (st : APIState) : JObj :=
  [("grant_type", .str "refresh_token"), ("client_id", .str client_id),
   ("client_secret", .str client_secret),
   ("refresh_token", st.refresh_token.getD .null)]

/-- `refresh_access_token`: requires a truthy stored refresh token, POSTs
the refresh request (no bearer header: `require_auth=False`); on a
response containing `"access_token"` it assigns
`self.access_token = response["access_token"]` and
`self.refresh_token = response.get("refresh_token")` and saves; any
other outcome changes nothing.  Returns the request issued (if any),
the boolean result, the state and the token cache. -/
def refresh_access_token (st : APIState) (fs : TokenFile) (net : NetResult) :
    Option HttpRequest × Bool × APIState × TokenFile :=
  if truthyOpt st.refresh_token then
    let req := buildRequest st .POST "/oauth2/token" [] (refresh_data st) false false
    let response := responseOf net
    match response.getVal "access_token" with
    | none => (some req, false, st, fs)
    | some a =>
      let st' := { st with access_token := some a,
                           refresh_token := response.getVal "refresh_token" }
      (some req, true, st', save_tokens st')
  else (none, false, st, fs)

/-- `get_items`: authenticated catalog listing; `access_token or ""`. -/
def get_items (st : APIState) (page perpage : Int) (type_filter : Option JVal)
    (net : NetResult) : HttpRequest × JObj :=
  let params : JObj :=
    [("access_token", pyOr st.access_token (.str "")),
     ("page", .num page), ("perpage", .num perpage)]
  let params := if truthyOpt type_filter
    then params ++ [("type", type_filter.getD .null)] else params
  make_request st .GET "/v1/items" params [] true false net

/-- `get_item_details`. -/
def get_item_details (st : APIState) (item_id : String) (net : NetResult) :
    HttpRequest × JObj :=
  make_request st .GET ("/v1/items/" ++ item_id)
    [("access_token", pyOr st.access_token (.str ""))] [] true false net

/-- `search_content`: passes `self.access_token` raw (a Python `None`
becomes a `null`-valued query parameter here, not `""`). -/
def search_content (st : APIState) (query : JVal) (page perpage : Int)
    (net : NetResult) : HttpRequest × JObj :=
  make_request st .GET "/v1/items/search"
    [("access_token", st.access_token.getD .null), ("q", query),
     ("page", .num page), ("perpage", .num perpage)] [] true false net

/-- `get_tv_channels`. -/
def get_tv_channels (st : APIState) (net : NetResult) : HttpRequest × JObj :=
  make_request st .GET "/v1/tv/index"
    [("access_token", pyOr st.access_token (.str ""))] [] true false net

/-- `get_genres`. -/
def get_genres (st : APIState) (genre_type : Option JVal) (net : NetResult) :
    HttpRequest × JObj :=
  let params : JObj := [("access_token", pyOr st.access_token (.str ""))]
  let params := if truthyOpt genre_type
    then params ++ [("type", genre_type.getD .null)] else params
  make_request st .GET "/v1/genres" params [] true false net

/-- A poll answer that keeps the loop going: HTTP 400 whose JSON body has
`"error": "authorization_pending"`. -/
def pendingResp (r : NetResult) : Prop :=
  ∃ err, r = .http 400 (some err) ∧
    JObj.getVal err "error" = some (.str "authorization_pending")

theorem wait_loop_pending_step (st : APIState) (fs : TokenFile) (deadline : Int)
    (clock : Nat → Int) (net : Nat → NetResult) (i fuel : Nat) (err : JObj)
    (hc : clock i < deadline)
    (hnet : net i = .http 400 (some err))
    (herr : JObj.getVal err "error" = some (.str "authorization_pending"))
    (r : WaitResult) (st' : APIState) (fs' : TokenFile)
    (reqs : List HttpRequest) (sleeps : List JVal)
    (hrec : wait_loop st fs deadline clock net (i + 1) fuel = (r, st', fs', reqs, sleeps)) :
    wait_loop st fs deadline clock net i (fuel + 1) =
      (r, st', fs', pollRequest st :: reqs, st.interval :: sleeps) := by
  simp only [wait_loop]
  rw [if_pos hc, hnet]
  simp only [if_neg (by decide : ¬(400 = 200)), if_pos (rfl : (400 : Nat) = 400),
    if_pos herr, hrec, if_pos trivial]

theorem wait_loop_terminal_step (st : APIState) (fs : TokenFile) (deadline : Int)
    (clock : Nat → Int) (net : Nat → NetResult) (i fuel : Nat)
    (hc : clock i < deadline) :
    (∀ err, net i = .http 400 (some err) →
        JObj.getVal err "error" ≠ some (.str "authorization_pending") →
        wait_loop st fs deadline clock net i (fuel + 1) =
          (.done false, st, fs, [pollRequest st], []))
  ∧ (net i = .http 400 none →
        wait_loop st fs deadline clock net i (fuel + 1) =
          (.done false, st, fs, [pollRequest st], []))
  ∧ (∀ status body, net i = .http status body → status ≠ 200 → status ≠ 400 →
        wait_loop st fs deadline clock net i (fuel + 1) =
          (.done false, st, fs, [pollRequest st], []))
  ∧ (net i = .exn →
        wait_loop st fs deadline clock net i (fuel + 1) =
          (.done false, st, fs, [pollRequest st], [])) := by
  refine ⟨?_, ?_, ?_, ?_⟩
  · intro err hnet herr
    simp only [wait_loop]
    rw [if_pos hc, hnet]
    simp only [if_neg (by decide : ¬(400 = 200)), if_pos (rfl : (400 : Nat) = 400),
      if_neg herr, if_pos trivial]
  · intro hnet
    simp only [wait_loop]
    rw [if_pos hc, hnet]
    simp only [if_neg (by decide : ¬(400 = 200)), if_pos (rfl : (400 : Nat) = 400),
      if_pos trivial]
  · intro status body hnet h200 h400
    simp only [wait_loop]
    rw [if_pos hc, hnet]
    simp only [if_neg h200, if_neg h400]
  · intro hnet
    simp only [wait_loop]
    rw [if_pos hc, hnet]

/-- Claim C2: during `wait_for_activation`, on each poll made before the
deadline, an HTTP 400 response whose body has `error` equal to
`authorization_pending` causes a sleep of exactly the stored `interval`
followed by another poll (the run continues exactly as the loop started
at the next iteration, with the poll request and the slept interval
prepended to the traces); an HTTP 400 with any other error value (or an
unparseable 400 body), any other non-200 status, and a network-level
failure each return `false` immediately, with exactly that one poll
issued and no sleep recorded. -/
theorem poll_transition_behavior (st : APIState) (fs : TokenFile) (deadline : Int)
    (clock : Nat → Int) (net : Nat → NetResult) (i fuel : Nat)
    (hc : clock i < deadline) :
    (∀ err r st' fs' reqs sleeps, net i = .http 400 (some err) →
        JObj.getVal err "error" = some (.str "authorization_pending") →
        wait_loop st fs deadline clock net (i + 1) fuel = (r, st', fs', reqs, sleeps) →
        wait_loop st fs deadline clock net i (fuel + 1) =
          (r, st', fs', pollRequest st :: reqs, st.interval :: sleeps))
  ∧ (∀ err, net i = .http 400 (some err) →
        JObj.getVal err "error" ≠ some (.str "authorization_pending") →
        wait_loop st fs deadline clock net i (fuel + 1) =
          (.done false, st, fs, [pollRequest st], []))
  ∧ (net i = .http 400 none →
        wait_loop st fs deadline clock net i (fuel + 1) =
          (.done false, st, fs, [pollRequest st], []))
  ∧ (∀ status body, net i = .http status body → status ≠ 200 → status ≠ 400 →
        wait_loop st fs deadline clock net i (fuel + 1) =
          (.done false, st, fs, [pollRequest st], []))
  ∧ (net i = .exn →
        wait_loop st fs deadline clock net i (fuel + 1) =
          (.done false, st, fs, [pollRequest st], [])) := by
  obtain ⟨h1, h2, h3, h4⟩ := wait_loop_terminal_step st fs deadline clock net i fuel hc
  exact ⟨fun err r st' fs' reqs sleeps hnet herr hrec =>
      wait_loop_pending_step st fs deadline clock net i fuel err hc hnet herr
        r st' fs' reqs sleeps hrec,
    h1, h2, h3, h4⟩

/-- Witness for `poll_transition_behavior` at a concrete state, clock,
deadline and network. -/
theorem poll_transition_behavior_witness :
    wait_loop initState .missing 10 (fun j => (j : Int))
        (fun _ => .http 400 (some [("error", .str "denied")])) 0 1 =
      (.done false, initState, .missing, [pollRequest initState], []) :=
  (poll_transition_behavior initState .missing 10 (fun j => (j : Int))
      (fun _ => .http 400 (some [("error", .str "denied")])) 0 0
      (by decide)).2.1 [("error", .str "denied")] rfl (by decide)

theorem wait_loop_pending_done (st : APIState) (fs : TokenFile) (deadline : Int)
    (clock : Nat → Int) (net : Nat → NetResult)
    (hp : ∀ j, pendingResp (net j)) :
    ∀ fuel i, deadline ≤ clock (i + fuel) →
      ∃ reqs sleeps,
        wait_loop st fs deadline clock net i fuel = (.done false, st, fs, reqs, sleeps) := by
  intro fuel
  induction fuel with
  | zero =>
    intro i hdl
    rw [Nat.add_zero] at hdl
    refine ⟨[], [], ?_⟩
    simp only [wait_loop]
    rw [if_neg (by omega : ¬ clock i < deadline)]
  | succ n ih =>
    intro i hdl
    by_cases hc : clock i < deadline
    · obtain ⟨err, hnet, herr⟩ := hp i
      obtain ⟨reqs, sleeps, hrec⟩ := ih (i + 1)
        (by rw [show i + 1 + n = i + (n + 1) from by omega]; exact hdl)
      exact ⟨pollRequest st :: reqs, st.interval :: sleeps,
        wait_loop_pending_step st fs deadline clock net i n err hc hnet herr
          _ _ _ _ _ hrec⟩
    · refine ⟨[], [], ?_⟩
      simp only [wait_loop]
      rw [if_neg hc]

/-- Claim C5: if every poll returns HTTP 400 with
`error = authorization_pending`, then once the elapsed clock reaches the
`expires_in` deadline `wait_for_activation` returns `false`, with the
state (in particular `access_token` and `refresh_token`) and the
persisted token cache completely unchanged. -/
theorem wait_all_pending_returns_false (st : APIState) (fs : TokenFile)
    (clock : Nat → Int) (net : Nat → NetResult) (fuel : Nat) (n : Int)
    (hdc : truthyOpt st.device_code = true)
    (hexp : st.expires_in = some (.num n))
    (hp : ∀ j, pendingResp (net j))
    (hdl : n ≤ clock fuel) :
    ∃ reqs sleeps,
      wait_for_activation st fs clock net fuel = (.done false, st, fs, reqs, sleeps) := by
  obtain ⟨reqs, sleeps, h⟩ := wait_loop_pending_done st fs n clock net hp fuel 0
    (by rw [Nat.zero_add]; exact hdl)
  refine ⟨reqs, sleeps, ?_⟩
  unfold wait_for_activation
  rw [hdc, hexp]
  exact h

/-- Witness for `wait_all_pending_returns_false`: a pending-only server
and a two-second grant. -/
theorem wait_all_pending_returns_false_witness :
    ∃ reqs sleeps,
      wait_for_activation
          { initState with device_code := some (.str "d"), expires_in := some (.num 2) }
          .missing (fun j => (j : Int))
          (fun _ => .http 400 (some [("error", .str "authorization_pending")])) 3 =
        (.done false,
         { initState with device_code := some (.str "d"), expires_in := some (.num 2) },
         .missing, reqs, sleeps) :=
  wait_all_pending_returns_false
    { initState with device_code := some (.str "d"), expires_in := some (.num 2) }
    .missing (fun j => (j : Int))
    (fun _ => .http 400 (some [("error", .str "authorization_pending")])) 3 2
    rfl rfl
    (fun _ => ⟨[("error", .str "authorization_pending")], rfl, rfl⟩)
    (by decide)

/-- Claim C10: with no device code set, `wait_for_activation` returns
`false` at once, issuing no request, recording no sleep and changing no
state; likewise, when `expires_in or 0` is not positive (unset, zero,
negative, or otherwise falsy), the loop body never runs (the elapsed
clock is nonnegative), and the method returns `false` with everything
unchanged. -/
theorem wait_guard_no_polling (st st2 : APIState) (fs : TokenFile)
    (clock : Nat → Int) (net : Nat → NetResult) (fuel : Nat) (n : Int)
    (h1 : truthyOpt st.device_code = false)
    (h2 : truthyOpt st2.device_code = true)
    (h3 : expires_or_zero st2.expires_in = some n)
    (h4 : n ≤ 0) (h5 : 0 ≤ clock 0) :
    wait_for_activation st fs clock net fuel = (.done false, st, fs, [], [])
  ∧ wait_for_activation st2 fs clock net fuel = (.done false, st2, fs, [], []) := by
  constructor
  · unfold wait_for_activation
    rw [h1]
    rfl
  · simp only [wait_for_activation, h2, h3, if_true]
    cases fuel with
    | zero =>
      simp only [wait_loop]
      split
      · omega
      · rfl
    | succ m =>
      simp only [wait_loop]
      split
      · omega
      · rfl

/-- Witness for `wait_guard_no_polling`: no device code in one state, a
`None` `expires_in` in the other. -/
theorem wait_guard_no_polling_witness :
    wait_for_activation initState .missing (fun j => (j : Int)) (fun _ => .exn) 5 =
      (.done false, initState, .missing, [], [])
  ∧ wait_for_activation { initState with device_code := some (.str "d") } .missing
        (fun j => (j : Int)) (fun _ => .exn) 5 =
      (.done false, { initState with device_code := some (.str "d") }, .missing, [], []) :=
  wait_guard_no_polling initState { initState with device_code := some (.str "d") }
    .missing (fun j => (j : Int)) (fun _ => .exn) 5 0
    rfl rfl rfl (by decide) (by decide)


/-- Claim C1, counterexample: with stored refresh token `"OLD"`, a
successful refresh response that carries an `access_token` but no
`refresh_token` does not retain the old refresh token — the code
executes `self.refresh_token = response.get("refresh_token")`, storing
`None`. -/
theorem refresh_token_dropped_when_absent :
    (refresh_access_token
        { initState with access_token := some (.str "A0"),
                         refresh_token := some (.str "OLD") }
        .missing (.http 200 (some [("access_token", .str "NEW")]))).2.1 = true
  ∧ (refresh_access_token
        { initState with access_token := some (.str "A0"),
                         refresh_token := some (.str "OLD") }
        .missing (.http 200 (some [("access_token", .str "NEW")]))).2.2.1.refresh_token
      = none := ⟨rfl, rfl⟩

/-- Claim C1, amended: on a successful refresh (response contains
`access_token`), `access_token` is replaced unconditionally by the
response's value, and `refresh_token` is replaced unconditionally by
`response.get("refresh_token")` — the response's value when it supplies
one, and `None` (not the previously stored token) when it does not; the
new pair is persisted. -/
theorem refresh_success_replaces_tokens (st : APIState) (fs : TokenFile)
    (net : NetResult) (a : JVal)
    (hrt : truthyOpt st.refresh_token = true)
    (ha : (responseOf net).getVal "access_token" = some a) :
    refresh_access_token st fs net =
      (some (buildRequest st .POST "/oauth2/token" [] (refresh_data st) false false),
       true,
       { st with access_token := some a,
                 refresh_token := (responseOf net).getVal "refresh_token" },
       .stored (some a) ((responseOf net).getVal "refresh_token")) := by
  simp only [refresh_access_token, hrt, if_true, ha]
  rfl

/-- Witness for `refresh_success_replaces_tokens`: the refresh response
supplies a new refresh token and both fields are replaced. -/
theorem refresh_success_replaces_tokens_witness :
    refresh_access_token
        { initState with refresh_token := some (.str "OLD") } .missing
        (.http 200 (some [("access_token", .str "A1"), ("refresh_token", .str "R1")])) =
      (some (buildRequest { initState with refresh_token := some (.str "OLD") }
          .POST "/oauth2/token" []
          (refresh_data { initState with refresh_token := some (.str "OLD") }) false false),
       true,
       { initState with access_token := some (.str "A1"),
                        refresh_token := some (.str "R1") },
       .stored (some (.str "A1")) (some (.str "R1"))) :=
  refresh_success_replaces_tokens
    { initState with refresh_token := some (.str "OLD") } .missing
    (.http 200 (some [("access_token", .str "A1"), ("refresh_token", .str "R1")]))
    (.str "A1") rfl rfl

/-- Claim C3, counterexample: `_make_request` does not return typed,
distinguishable failures — a network-level error, an HTTP 404 carrying
an error body, and a successful 200 response with an empty body all
return the very same empty dict, with no tag and no status attached. -/
theorem transport_failures_untagged :
    (make_request initState .POST "/oauth2/token" [] [] false false .exn).2
      = (make_request initState .POST "/oauth2/token" [] [] false false
          (.http 200 (some []))).2
  ∧ (make_request initState .POST "/oauth2/token" [] [] false false
        (.http 404 (some [("error", .str "boom")]))).2
      = (make_request initState .POST "/oauth2/token" [] [] false false .exn).2 :=
  ⟨rfl, rfl⟩

/-- Claim C3, amended: `_make_request` never raises past its boundary
for the GET/POST calls the client makes, but every failure — network
error, HTTP status ≥ 400, unparseable body — yields the same empty
dict, carrying no tag, status or error body, so callers cannot
distinguish failure kinds from one another or from an empty success
body; a parseable success body is returned as-is. -/
theorem make_request_total_behavior (st : APIState) (m : Method)
    (endpoint : String) (params data : JObj) (require_auth use_json : Bool) :
    (make_request st m endpoint params data require_auth use_json .exn).2 = []
  ∧ (∀ status body, 400 ≤ status →
      (make_request st m endpoint params data require_auth use_json
        (.http status body)).2 = [])
  ∧ (∀ status, status < 400 →
      (make_request st m endpoint params data require_auth use_json
        (.http status none)).2 = [])
  ∧ (∀ status o, status < 400 →
      (make_request st m endpoint params data require_auth use_json
        (.http status (some o))).2 = o) := by
  refine ⟨rfl, ?_, ?_, ?_⟩
  · intro status body hs
    simp only [make_request, responseOf, if_pos hs]
  · intro status hs
    simp only [make_request, responseOf, if_neg (by omega : ¬ 400 ≤ status)]
  · intro status o hs
    simp only [make_request, responseOf, if_neg (by omega : ¬ 400 ≤ status)]

/-- Witness for `make_request_total_behavior` at a concrete 500
response with an error body. -/
theorem make_request_total_behavior_witness :
    (make_request initState .GET "/v1/items" [] [] true false
      (.http 500 (some [("error", .str "server")]))).2 = [] :=
  (make_request_total_behavior initState .GET "/v1/items" [] [] true false).2.1
    500 (some [("error", .str "server")]) (by omega)

/-- Claim C4, counterexample: a device-code response that contains
`code` but omits `user_code` makes `start_device_auth` raise `KeyError`
instead of returning `true`, and it has already mutated `device_code`
by then. -/
theorem start_device_auth_keyerror_on_missing_fields :
    (start_device_auth initState (.http 200 (some [("code", .str "c")]))).2.1
      = .exn "KeyError"
  ∧ (start_device_auth initState
        (.http 200 (some [("code", .str "c")]))).2.2.device_code = some (.str "c") :=
  ⟨rfl, rfl⟩

/-- Claim C4, amended: `start_device_auth` returns `false`, with no
field modified, exactly when the response has no `code` field; it
returns `true` when `code`, `user_code` and `verification_uri` are all
present, mirroring each into the grant fields with `expires_in`
defaulting to 8600 and `interval` to 5 when absent; when `code` is
present but `user_code` or `verification_uri` is missing it raises
`KeyError`, having already assigned the earlier fields in source
order. -/
theorem start_device_auth_cases (st : APIState) (net : NetResult) :
    ((responseOf net).getVal "code" = none →
      start_device_auth st net =
        (buildRequest st .POST "/oauth2/device" [] device_auth_data false false,
         .ok false, st))
  ∧ (∀ c u v, (responseOf net).getVal "code" = some c →
      (responseOf net).getVal "user_code" = some u →
      (responseOf net).getVal "verification_uri" = some v →
      start_device_auth st net =
        (buildRequest st .POST "/oauth2/device" [] device_auth_data false false,
         .ok true,
         { st with device_code := some c, user_code := some u,
                   verification_uri := some v,
                   expires_in := some ((responseOf net).getD "expires_in" (.num 8600)),
                   interval := (responseOf net).getD "interval" (.num 5) }))
  ∧ (∀ c, (responseOf net).getVal "code" = some c →
      (responseOf net).getVal "user_code" = none →
      (start_device_auth st net).2.1 = .exn "KeyError" ∧
      (start_device_auth st net).2.2 = { st with device_code := some c })
  ∧ (∀ c u, (responseOf net).getVal "code" = some c →
      (responseOf net).getVal "user_code" = some u →
      (responseOf net).getVal "verification_uri" = none →
      (start_device_auth st net).2.1 = .exn "KeyError" ∧
      (start_device_auth st net).2.2 =
        { st with device_code := some c, user_code := some u }) := by
  refine ⟨?_, ?_, ?_, ?_⟩
  · intro hc
    simp only [start_device_auth, hc]
  · intro c u v hc hu hv
    simp only [start_device_auth, hc, hu, hv]
  · intro c hc hu
    simp only [start_device_auth, hc, hu]
    exact ⟨trivial, trivial⟩
  · intro c u hc hu hv
    simp only [start_device_auth, hc, hu, hv]
    exact ⟨trivial, trivial⟩

/-- Witness for `start_device_auth_cases` at the documented full
device-code response. -/
theorem start_device_auth_cases_witness :
    start_device_auth initState
        (.http 200 (some [("code", .str "abc"), ("user_code", .str "XY12"),
          ("verification_uri", .str "https://x/device"),
          ("expires_in", .num 600), ("interval", .num 5)])) =
      (buildRequest initState .POST "/oauth2/device" [] device_auth_data false false,
       .ok true,
       { initState with device_code := some (.str "abc"),
                        user_code := some (.str "XY12"),
                        verification_uri := some (.str "https://x/device"),
                        expires_in := some (.num 600), interval := .num 5 }) :=
  (start_device_auth_cases initState
      (.http 200 (some [("code", .str "abc"), ("user_code", .str "XY12"),
        ("verification_uri", .str "https://x/device"),
        ("expires_in", .num 600), ("interval", .num 5)]))).2.1
    (.str "abc") (.str "XY12") (.str "https://x/device") rfl rfl rfl

/-- Claim C8: saving any token pair and loading it back yields exactly
the saved pair; loading from a missing or corrupt cache into a freshly
constructed client never raises and leaves both tokens `None`. -/
theorem token_store_round_trip (a r : Option JVal) (st st0 : APIState) :
    load_tokens st0 (save_tokens { st with access_token := a, refresh_token := r })
      = { st0 with access_token := a, refresh_token := r }
  ∧ newAPI .missing = initState
  ∧ newAPI .corrupt = initState
  ∧ initState.access_token = none ∧ initState.refresh_token = none :=
  ⟨rfl, rfl, rfl, rfl, rfl⟩


theorem wait_loop_token_atomic (st : APIState) (fs : TokenFile) (deadline : Int)
    (clock : Nat → Int) (net : Nat → NetResult) :
    ∀ fuel i r st' fs' reqs sleeps,
      wait_loop st fs deadline clock net i fuel = (r, st', fs', reqs, sleeps) →
      (r ≠ .done true → st' = st ∧ fs' = fs)
    ∧ (r = .done true → ∃ a rt,
        st' = { st with access_token := some a, refresh_token := rt }
        ∧ fs' = .stored (some a) rt) := by
  intro fuel
  induction fuel with
  | zero =>
    intro i r st' fs' reqs sleeps h
    simp only [wait_loop] at h
    split at h <;>
      · obtain ⟨rfl, rfl, rfl, rfl, rfl⟩ := by simpa using h
        exact ⟨fun _ => ⟨rfl, rfl⟩, fun hh => absurd hh (by simp)⟩
  | succ n ih =>
    intro i r st' fs' reqs sleeps h
    simp only [wait_loop] at h
    split at h
    case isTrue hc =>
      split at h
      case h_1 =>
        obtain ⟨rfl, rfl, rfl, rfl, rfl⟩ := by simpa using h
        exact ⟨fun _ => ⟨rfl, rfl⟩, fun hh => absurd hh (by simp)⟩
      case h_2 status body =>
        split at h
        case isTrue h200 =>
          split at h
          case h_1 =>
            obtain ⟨rfl, rfl, rfl, rfl, rfl⟩ := by simpa using h
            exact ⟨fun _ => ⟨rfl, rfl⟩, fun hh => absurd hh (by simp)⟩
          case h_2 tok =>
            split at h
            case h_1 =>
              obtain ⟨rfl, rfl, rfl, rfl, rfl⟩ := by simpa using h
              exact ⟨fun _ => ⟨rfl, rfl⟩, fun hh => absurd hh (by simp)⟩
            case h_2 a ha =>
              obtain ⟨rfl, rfl, rfl, rfl, rfl⟩ := by simpa using h
              exact ⟨fun hh => absurd rfl hh,
                fun _ => ⟨a, JObj.getVal tok "refresh_token", rfl, rfl⟩⟩
        case isFalse h200 =>
          split at h
          case isTrue h400 =>
            split at h
            case h_1 =>
              obtain ⟨rfl, rfl, rfl, rfl, rfl⟩ := by simpa using h
              exact ⟨fun _ => ⟨rfl, rfl⟩, fun hh => absurd hh (by simp)⟩
            case h_2 err =>
              split at h
              case isTrue herr =>
                rcases hrec : wait_loop st fs deadline clock net (i + 1) n with
                  ⟨r0, st0, fs0, reqs0, sl0⟩
                rw [hrec] at h
                simp only at h
                obtain ⟨rfl, rfl, rfl, rfl, rfl⟩ := by simpa using h
                exact ih (i + 1) r0 st0 fs0 reqs0 sl0 hrec
              case isFalse herr =>
                obtain ⟨rfl, rfl, rfl, rfl, rfl⟩ := by simpa using h
                exact ⟨fun _ => ⟨rfl, rfl⟩, fun hh => absurd hh (by simp)⟩
          case isFalse h400 =>
            obtain ⟨rfl, rfl, rfl, rfl, rfl⟩ := by simpa using h
            exact ⟨fun _ => ⟨rfl, rfl⟩, fun hh => absurd hh (by simp)⟩
    case isFalse hc =>
      obtain ⟨rfl, rfl, rfl, rfl, rfl⟩ := by simpa using h
      exact ⟨fun _ => ⟨rfl, rfl⟩, fun hh => absurd hh (by simp)⟩


/-- Claim C6: the token pair is never partially updated.  A failed
refresh (refresh response without `access_token`, transport failure, or
no stored refresh token) changes neither token nor the cache; a
successful refresh replaces both fields in one step and persists them.
`wait_for_activation` likewise: any outcome other than returning `true`
leaves state and cache untouched, and returning `true` means both
fields were replaced in one step and persisted.  `start_device_auth`
never touches either token. -/
theorem token_pair_never_partially_updated (st : APIState) (fs : TokenFile)
    (net : NetResult) (clock : Nat → Int) (pnet : Nat → NetResult) (fuel : Nat) :
    (∀ req st' fs', refresh_access_token st fs net = (req, false, st', fs') →
       st' = st ∧ fs' = fs)
  ∧ (∀ req st' fs', refresh_access_token st fs net = (req, true, st', fs') →
       ∃ a, st' = { st with access_token := some a,
                            refresh_token := (responseOf net).getVal "refresh_token" }
          ∧ fs' = .stored (some a) ((responseOf net).getVal "refresh_token"))
  ∧ (∀ r st' fs' reqs sleeps,
       wait_for_activation st fs clock pnet fuel = (r, st', fs', reqs, sleeps) →
       (r ≠ .done true → st' = st ∧ fs' = fs)
     ∧ (r = .done true → ∃ a rt,
          st' = { st with access_token := some a, refresh_token := rt }
          ∧ fs' = .stored (some a) rt))
  ∧ (start_device_auth st net).2.2.access_token = st.access_token
  ∧ (start_device_auth st net).2.2.refresh_token = st.refresh_token := by
  refine ⟨?_, ?_, ?_, ?_, ?_⟩
  · intro req st' fs' h
    by_cases hrt : truthyOpt st.refresh_token
    · simp only [refresh_access_token, hrt, if_true] at h
      rcases ha : (responseOf net).getVal "access_token" with _ | a <;> rw [ha] at h
      · simp only [Prod.mk.injEq] at h
        exact ⟨h.2.2.1.symm, h.2.2.2.symm⟩
      · simp only [Prod.mk.injEq] at h
        exact absurd h.2.1 (by simp)
    · unfold refresh_access_token at h
      rw [if_neg hrt] at h
      simp only [Prod.mk.injEq] at h
      exact ⟨h.2.2.1.symm, h.2.2.2.symm⟩
  · intro req st' fs' h
    by_cases hrt : truthyOpt st.refresh_token
    · simp only [refresh_access_token, hrt, if_true] at h
      rcases ha : (responseOf net).getVal "access_token" with _ | a <;> rw [ha] at h
      · simp only [Prod.mk.injEq] at h
        exact absurd h.2.1 (by simp)
      · simp only [Prod.mk.injEq] at h
        exact ⟨a, h.2.2.1.symm, h.2.2.2.symm⟩
    · unfold refresh_access_token at h
      rw [if_neg hrt] at h
      simp only [Prod.mk.injEq] at h
      exact absurd h.2.1 (by simp)
  · intro r st' fs' reqs sleeps h
    unfold wait_for_activation at h
    split at h
    case isTrue hdc =>
      split at h
      case h_1 =>
        obtain ⟨rfl, rfl, rfl, rfl, rfl⟩ := by simpa using h
        exact ⟨fun _ => ⟨rfl, rfl⟩, fun hh => absurd hh (by simp)⟩
      case h_2 deadline hd =>
        exact wait_loop_token_atomic st fs deadline clock pnet fuel 0
          r st' fs' reqs sleeps h
    case isFalse hdc =>
      obtain ⟨rfl, rfl, rfl, rfl, rfl⟩ := by simpa using h
      exact ⟨fun _ => ⟨rfl, rfl⟩, fun hh => absurd hh (by simp)⟩
  · simp only [start_device_auth]
    rcases (responseOf net).getVal "code" with _ | c
    · rfl
    · rcases (responseOf net).getVal "user_code" with _ | u
      · rfl
      · rcases (responseOf net).getVal "verification_uri" with _ | v <;> rfl
  · simp only [start_device_auth]
    rcases (responseOf net).getVal "code" with _ | c
    · rfl
    · rcases (responseOf net).getVal "user_code" with _ | u
      · rfl
      · rcases (responseOf net).getVal "verification_uri" with _ | v <;> rfl

/-- Witness for `token_pair_never_partially_updated`: a refresh with no
stored refresh token fails and changes nothing. -/
theorem token_pair_never_partially_updated_witness :
    initState = initState ∧ TokenFile.missing = TokenFile.missing :=
  (token_pair_never_partially_updated initState .missing .exn
      (fun j => (j : Int)) (fun _ => .exn) 1).1 none initState .missing rfl



/-- Claim C7: the device-code request (`require_auth=False`), the
device-token polls (raw `session.post` with no headers argument) and the
refresh-token request (`require_auth=False`) never carry an
`Authorization` bearer header; and `_make_request` attaches
`Authorization: Bearer <access_token>` to a request exactly when
`require_auth` holds and the stored access token is present (truthy). -/
theorem bearer_header_policy (st st2 : APIState) (fs : TokenFile) (net : NetResult)
    (m : Method) (endpoint : String) (params data : JObj)
    (require_auth use_json : Bool) :
    (start_device_auth st net).1.authHeader = none
  ∧ (pollRequest st).authHeader = none
  ∧ (∀ req b st' fs', refresh_access_token st fs net = (some req, b, st', fs') →
      req.authHeader = none)
  ∧ ((buildRequest st2 m endpoint params data require_auth use_json).authHeader.isSome
      = (require_auth && truthyOpt st2.access_token))
  ∧ (require_auth = true → truthyOpt st2.access_token = true →
      (buildRequest st2 m endpoint params data require_auth use_json).authHeader
        = some ("Bearer " ++ (st2.access_token.getD .null).pyStr)) := by
  refine ⟨?_, rfl, ?_, ?_, ?_⟩
  · simp only [start_device_auth]
    rcases (responseOf net).getVal "code" with _ | c
    · rfl
    · rcases (responseOf net).getVal "user_code" with _ | u
      · rfl
      · rcases (responseOf net).getVal "verification_uri" with _ | v <;> rfl
  · intro req b st' fs' h
    by_cases hrt : truthyOpt st.refresh_token
    · simp only [refresh_access_token, hrt, if_true] at h
      rcases ha : (responseOf net).getVal "access_token" with _ | a <;> rw [ha] at h <;>
        · simp only [Prod.mk.injEq, Option.some.injEq] at h
          rw [← h.1]
          rfl
    · unfold refresh_access_token at h
      rw [if_neg hrt] at h
      simp only [Prod.mk.injEq] at h
      exact absurd h.1 (by simp)
  · unfold buildRequest
    rcases hb : require_auth && truthyOpt st2.access_token
    · rw [if_neg (by simp [hb])]
      rfl
    · rw [if_pos (by simp [hb])]
      rfl
  · intro hra htok
    unfold buildRequest
    rw [if_pos (by rw [hra, htok]; rfl)]

/-- Witness for `bearer_header_policy`: the request issued by a
successful refresh carries no bearer header. -/
theorem bearer_header_policy_witness :
    (buildRequest { initState with refresh_token := some (.str "R") } .POST
        "/oauth2/token" []
        (refresh_data { initState with refresh_token := some (.str "R") })
        false false).authHeader = none :=
  (bearer_header_policy { initState with refresh_token := some (.str "R") }
      initState .missing (.http 200 (some [("access_token", .str "A")]))
      .POST "/oauth2/token" [] [] false false).2.2.1
    (buildRequest { initState with refresh_token := some (.str "R") } .POST
      "/oauth2/token" []
      (refresh_data { initState with refresh_token := some (.str "R") }) false false)
    true
    { initState with access_token := some (.str "A"),
                     refresh_token := none }
    (.stored (some (.str "A")) none) rfl

/-- Claim C9: with no access token stored, every resource operation
still issues its HTTP request rather than failing with a
not-authenticated error: `get_items`, `get_item_details`,
`get_tv_channels` and `get_genres` send `access_token` as the empty
string (`self.access_token or ""`), `search_content` passes the raw
`None`, and each returns whatever the transport yields — the empty dict
on failure. -/
theorem resource_calls_without_token (st : APIState) (page perpage : Int)
    (item_id : String) (q : JVal) (net : NetResult)
    (h : st.access_token = none) :
    (get_items st page perpage none net).1.params.getVal "access_token"
      = some (.str "")
  ∧ (get_items st page perpage none net).2 = responseOf net
  ∧ (get_item_details st item_id net).1.params.getVal "access_token"
      = some (.str "")
  ∧ (get_item_details st item_id net).2 = responseOf net
  ∧ (search_content st q page perpage net).1.params.getVal "access_token"
      = some .null
  ∧ (search_content st q page perpage net).2 = responseOf net
  ∧ (get_tv_channels st net).1.params.getVal "access_token" = some (.str "")
  ∧ (get_tv_channels st net).2 = responseOf net
  ∧ (get_genres st none net).1.params.getVal "access_token" = some (.str "")
  ∧ (get_genres st none net).2 = responseOf net
  ∧ responseOf .exn = [] := by
  simp [get_items, get_item_details, search_content, get_tv_channels, get_genres,
    make_request, buildRequest, JObj.getVal, pyOr, truthyOpt, responseOf, h]

/-- Witness for `resource_calls_without_token` on a freshly constructed
client with no cached tokens and a failing transport. -/
theorem resource_calls_without_token_witness :
    (get_items initState 2 10 none .exn).1.params.getVal "access_token"
      = some (.str "")
  ∧ (get_items initState 2 10 none .exn).2 = responseOf .exn
  ∧ (get_item_details initState "42" .exn).1.params.getVal "access_token"
      = some (.str "")
  ∧ (get_item_details initState "42" .exn).2 = responseOf .exn
  ∧ (search_content initState (.str "x") 1 20 .exn).1.params.getVal "access_token"
      = some .null
  ∧ (search_content initState (.str "x") 1 20 .exn).2 = responseOf .exn
  ∧ (get_tv_channels initState .exn).1.params.getVal "access_token" = some (.str "")
  ∧ (get_tv_channels initState .exn).2 = responseOf .exn
  ∧ (get_genres initState none .exn).1.params.getVal "access_token" = some (.str "")
  ∧ (get_genres initState none .exn).2 = responseOf .exn
  ∧ responseOf .exn = [] :=
  resource_calls_without_token initState 2 10 "42" (.str "x") .exn rfl

end KinoPub
